import Mathlib

/-!
Verification of the `majik-user` TypeScript package (`src/core/majik-user.ts`,
`src/utils.ts`) against its natural-language specification.

Shallow embedding conventions:
* JS strings are Lean `String`; character-level work happens on `List Char`.
* JS `Date` instants are `Int` (milliseconds since the epoch).  The model is
  restricted to valid instants: the JS "Invalid Date" value is not
  representable, and `toISOString`/`new Date(iso)` round-trip an instant
  exactly (millisecond precision), so serialized dates are modelled by the
  instant they denote.
* Methods that can `throw` return `Except String`; a thrown error leaves the
  caller's entity untouched, which the `Except` style models by returning no
  new state.  Methods that cannot throw return the new state directly.
* Every operation that reads the wall clock (`new Date()` inside
  `updateTimestamp` or a factory) takes the current instant `now : Int` as an
  explicit argument.
* The DOMPurify host primitive is external to the repository; it is passed as
  an explicit environment (`SanitizerBehavior`) where the source consults the
  module-level `internalSanitize` binding.
-/

namespace MajikUserModel

/-! ## Character and string helpers (JS regex semantics, specialized) -/

/-- JS `\d` character class. -/
def isDigitChar (c : Char) : Bool :=
  decide ('0' ≤ c) && decide (c ≤ '9')

/-- JS `String.prototype.trim`, implemented structurally over the character
list (the built-in `String.trim` is byte-position recursion that the kernel
cannot evaluate).  JS trims Unicode whitespace and line terminators;
`Char.isWhitespace` coincides on the ASCII range used throughout. -/
def jsTrimList (cs : List Char) : List Char :=
  ((cs.dropWhile Char.isWhitespace).reverse.dropWhile Char.isWhitespace).reverse

def jsTrim (s : String) : String :=
  ⟨jsTrimList s.toList⟩

/-- Case-insensitive list equality used to model the regex `i` flag on the
literal ASCII alternatives of `DANGER_PATTERNS`. -/
def lowerList (l : List Char) : List Char :=
  l.map Char.toLower

/-- Case-insensitive substring test: models `/lit1|lit2|…/i.test(hay)` for a
list of literal alternatives (each alternative is a plain string, so the
regex matches iff one alternative occurs as a substring, case-insensitively). -/
def containsCI (hay : String) (needle : String) : Bool :=
  (lowerList hay.toList).tails.any (fun t => (lowerList needle.toList).isPrefixOf t)

def anyContainsCI (hay : String) (needles : List String) : Bool :=
  needles.any (fun n => containsCI hay n)

/-! ## The four `DANGER_PATTERNS` of `src/utils.ts` (lines 183-188)

Patterns 1-3 are non-global (`i` flag only), hence stateless substring tests
of their literal alternatives.  Pattern 4, `/<[^>]*>|&[#\w]+;/g`, carries the
`g` flag: in JS, `RegExp.prototype.test` on a global regex starts searching at
the regex object's persistent `lastIndex`, sets `lastIndex` to the end of the
match on success, and resets it to `0` on failure (also when `lastIndex`
exceeds the input length).  The model threads that `lastIndex` explicitly. -/

/-- Pattern 1: `/<svg|<img|<script|<iframe|<object|<embed|<link|<meta|<style|<base/i`. -/
def dangerPattern1 (s : String) : Bool :=
  anyContainsCI s ["<svg", "<img", "<script", "<iframe", "<object",
                   "<embed", "<link", "<meta", "<style", "<base"]

/-- Pattern 2: `/onload=|onerror=|onclick=/i`. -/
def dangerPattern2 (s : String) : Bool :=
  anyContainsCI s ["onload=", "onerror=", "onclick="]

/-- Pattern 3: `/javascript:|data:/i`. -/
def dangerPattern3 (s : String) : Bool :=
  anyContainsCI s ["javascript:", "data:"]

/-- Character class `[#\w]` of the HTML-entity alternative of pattern 4. -/
def isEntityChar (c : Char) : Bool :=
  c = '#' || isDigitChar c || (decide ('a' ≤ c) && decide (c ≤ 'z')) ||
  (decide ('A' ≤ c) && decide (c ≤ 'Z')) || c = '_'

/-- Length of the match of `<[^>]*>|&[#\w]+;` starting exactly at the head of
`cs`, if any.  `<[^>]*>` matches from `<` to the first later `>`;
`&[#\w]+;` matches `&`, a maximal nonempty run of `[#\w]`, then `;`
(backtracking a shorter run cannot help because a run character is never `;`). -/
def matchDangerTailAt (cs : List Char) : Option Nat :=
  match cs with
  | '<' :: rest =>
    match rest.findIdx? (fun c => c = '>') with
    | some k => some (k + 2)
    | none =>
      none
  | '&' :: rest =>
    let run := rest.takeWhile isEntityChar
    if run.length > 0 && rest[run.length]? = some ';' then
      some (run.length + 2)
    else
      none
  | _ => none

/-- Leftmost match of pattern 4 in `cs` at or after offset `start` (absolute
index `base + position in cs`); returns the absolute end index of the match. -/
def searchDangerTail : List Char → Nat → Option Nat
  | [], _ => none
  | c :: rest, base =>
    match matchDangerTailAt (c :: rest) with
    | some len => some (base + len)
    | none => searchDangerTail rest (base + 1)

/-- `pattern4.test(input)` with the JS `g`-flag statefulness: takes the
regex object's current `lastIndex`, returns the boolean result and the new
`lastIndex`. -/
def dangerPattern4Test (lastIndex : Nat) (s : String) : Bool × Nat :=
  let cs := s.toList
  if lastIndex > cs.length then
    (false, 0)
  else
    match searchDangerTail (cs.drop lastIndex) lastIndex with
    | some e => (true, e)
    | none => (false, 0)

/-! ## Host sanitizing primitive environment -/

/-- Behaviour of the module-level `internalSanitize` binding resolved by
`getSafeSanitizer()`: absent (`null`), available and returning `f input`,
or available but throwing when invoked. -/
inductive SanitizerBehavior where
  | absent : SanitizerBehavior
  | available (f : String → String) : SanitizerBehavior
  | throwing : SanitizerBehavior

/-! ## `checkForHTMLTags` (src/utils.ts lines 193-214)

```
export function checkForHTMLTags(input: string): boolean {
  if (!input || typeof input !== "string" || !input.trim()) return false;
  const hasPatterns = DANGER_PATTERNS.some((pattern) => pattern.test(input));
  if (hasPatterns) return true;
  try {
    if (internalSanitize) {
      const clean = internalSanitize(input, { ALLOWED_TAGS: [], ALLOWED_ATTR: [] });
      return input.trim() !== clean.trim();
    }
  } catch (err) { … }
  return false;
}
```

`Array.prototype.some` evaluates the patterns in order and short-circuits, so
pattern 4's `lastIndex` is only touched when patterns 1-3 all fail.  The
function returns the boolean together with pattern 4's new `lastIndex`. -/
def checkForHTMLTags (san : SanitizerBehavior) (lastIndex : Nat)
    (input : String) : Bool × Nat :=
  if input = "" || jsTrim input = "" then
    (false, lastIndex)
  else if dangerPattern1 input || dangerPattern2 input || dangerPattern3 input then
    (true, lastIndex)
  else
    let p4 := dangerPattern4Test lastIndex input
    if p4.1 then
      (true, p4.2)
    else
      match san with
      | .available f => (decide (jsTrim input ≠ jsTrim (f input)), p4.2)
      | .absent => (false, p4.2)
      | .throwing => (false, p4.2)

/-! ## `sanitizeInput` (src/utils.ts lines 219-243) and its fallback -/

/-- Case-insensitive, left-to-right, non-overlapping global replacement of any
of `needles` (tried in order at each position) by `repl`: the semantics of the
chained `String.prototype.replace(/lit1|lit2|…/gi, repl)` calls of the
hardened fallback.  `fuel` bounds recursion; called with `fuel = cs.length`
and nonempty needles it scans the whole list exactly. -/
def replaceAllCIAux (needles : List (List Char)) (repl : List Char) :
    Nat → List Char → List Char
  | 0, cs => cs
  | _ + 1, [] => []
  | fuel + 1, c :: rest =>
    match needles.find? (fun n => (lowerList n).isPrefixOf (lowerList (c :: rest))) with
    | some n => repl ++ replaceAllCIAux needles repl fuel ((c :: rest).drop n.length)
    | none => c :: replaceAllCIAux needles repl fuel rest

def replaceAllCI (s : String) (needles : List String) (repl : String) : String :=
  ⟨replaceAllCIAux (needles.map String.toList) repl.toList s.toList.length s.toList⟩

/-- Global removal of `/<[^>]*>/g`: each match runs from a `<` to the first
later `>`; a `<` with no later `>` cannot start a match. -/
def stripTagsAux : Nat → List Char → List Char
  | 0, cs => cs
  | _ + 1, [] => []
  | fuel + 1, c :: rest =>
    if c = '<' then
      match rest.findIdx? (fun d => d = '>') with
      | some k => stripTagsAux fuel (rest.drop (k + 1))
      | none => c :: stripTagsAux fuel rest
    else
      c :: stripTagsAux fuel rest

def stripTags (s : String) : String :=
  ⟨stripTagsAux s.toList.length s.toList⟩

/-- The hardened fallback body of `sanitizeInput`'s `catch` block:
replace `javascript:` and `data:` with `[removed]`, replace
`onload=`/`onerror=`/`onclick=` with `prevented=`, strip remaining tags, trim. -/
def hardenedFallback (input : String) : String :=
  let h1 := replaceAllCI input ["javascript:"] "[removed]"
  let h2 := replaceAllCI h1 ["data:"] "[removed]"
  let h3 := replaceAllCI h2 ["onload=", "onerror=", "onclick="] "prevented="
  jsTrim (stripTags h3)

/-- `sanitizeInput`:

```
export function sanitizeInput(input: string): string {
  if (!input || typeof input !== "string") return "";
  try {
    if (internalSanitize) {
      return internalSanitize(input, {…, KEEP_CONTENT: true}).trim();
    }
  } catch (err) {
    … hardened fallback …
  }
  return input.trim();
}
```

Note the control flow faithfully embedded here: the hardened fallback runs
only when the primitive is present and throws; when the primitive is absent
(`internalSanitize === null`) nothing in the `try` block throws, so execution
falls through to `return input.trim()` with no replacement and no tag
stripping.  The function is total (never throws). -/
def sanitizeInput (san : SanitizerBehavior) (input : String) : String :=
  if input = "" then
    ""
  else
    match san with
    | .available f => jsTrim (f input)
    | .throwing => hardenedFallback input
    | .absent => jsTrim input

/-! ## Field-validation regexes of `majik-user.ts` -/

/-- `validateEmail`'s regex `/^[^\s@]+@[^\s@]+\.[^\s@]+$/` (line 944).
JS `\s` on the ASCII range is space, tab, and the line terminators; the model
uses `Char.isWhitespace`, which coincides on ASCII.  The regex matches iff the
string splits as `a@t` with exactly one `@`, `a` nonempty and
whitespace-free, `t` whitespace-free, and `t` containing a `.` that has at
least one character on each side (the three `[^\s@]+` groups). -/
def emailRegexTest (s : String) : Bool :=
  let cs := s.toList
  let a := cs.takeWhile (fun c => c ≠ '@')
  let t := cs.drop (a.length + 1)
  decide (cs.count '@' = 1) && decide (a.length > 0) &&
  a.all (fun c => !c.isWhitespace) && t.all (fun c => !c.isWhitespace) &&
  ((t.drop 1).dropLast.contains '.')

/-- `validate`'s phone regex `/^\+?[1-9]\d{1,14}$/` (line 850). -/
def phoneRegexTest (s : String) : Bool :=
  let cs := s.toList
  let body := if cs.head? = some '+' then cs.drop 1 else cs
  match body with
  | c :: rest =>
    decide ('1' ≤ c) && decide (c ≤ '9') && rest.all isDigitChar &&
    decide (1 ≤ rest.length) && decide (rest.length ≤ 14)
  | [] => false

/-- The strict-shape birthdate regex `/^\d{4}-\d{2}-\d{2}$/` used by both
`setBirthdate` (line 518) and `validate` (line 856). -/
def birthdateRegexTest (s : String) : Bool :=
  let cs := s.toList
  cs.length = 10 && (cs.take 4).all isDigitChar && cs[4]? = some '-' &&
  ((cs.drop 5).take 2).all isDigitChar && cs[7]? = some '-' &&
  (cs.drop 8).all isDigitChar

/-! ## Data model (src/types.ts, src/core/majik-user.ts)

`JSDate` abbreviates `Int` (milliseconds since the epoch; valid instants
only).  The open-ended index signatures (`[key: string]: unknown` on
`UserSettings`, subclass-added metadata) carry caller extensions verbatim
through every operation modelled below; they are omitted from the model,
which covers the fields the class itself reads or writes. -/

abbrev JSDate := Int

/-- `FullName` (src/types.ts). -/
structure FullName where
  first_name : String
  last_name : String
  middle_name : Option String := none
  suffix : Option String := none
deriving DecidableEq, Repr

/-- `Address` (src/types.ts); geocoordinates as a pair of rationals stands in
for the two JS numbers. -/
structure Address where
  country : Option String := none
  city : Option String := none
  region : Option String := none
  area : Option String := none
  street : Option String := none
  building : Option String := none
  zip : Option String := none
  country_code : Option String := none
  coordinates : Option (Rat × Rat) := none
deriving DecidableEq, Repr

/-- The `verification` sub-record of `UserBasicInformation`. -/
structure Verification where
  email_verified : Bool
  phone_verified : Bool
  identity_verified : Bool
deriving DecidableEq, Repr

/-- `UserBasicInformation` (src/types.ts).  `social_links` is the
`Record<string, string>` modelled as an insertion-ordered association list
(JS object spread preserves insertion order).  `company` is carried opaquely
as an optional marker, since no operation under proof reads its fields. -/
structure UserBasicInformation where
  name : Option FullName := none
  picture : Option String := none
  phone : Option String := none
  gender : Option String := none
  birthdate : Option String := none
  address : Option Address := none
  pronouns : Option String := none
  bio : Option String := none
  language : Option String := none
  timezone : Option String := none
  verification : Option Verification := none
  social_links : Option (List (String × String)) := none
deriving DecidableEq, Repr

/-- The `system` sub-record of `UserSettings`. -/
structure SystemSettings where
  isRestricted : Bool
  restrictedUntil : Option JSDate := none
deriving DecidableEq, Repr

/-- `UserSettings` (src/types.ts), known fields. -/
structure UserSettings where
  notifications : Bool
  system : SystemSettings
deriving DecidableEq, Repr

/-- The private state of a `MajikUser` instance (fields `id`, `_email`,
`_displayName`, `_hash`, `_metadata`, `_settings`, `createdAt`,
`_lastUpdate`). -/
structure MajikUser where
  id : String
  email : String
  displayName : String
  hash : String
  metadata : UserBasicInformation
  settings : UserSettings
  createdAt : JSDate
  lastUpdate : JSDate
deriving DecidableEq, Repr

/-- The default settings object used by `initialize` and as `fromJSON`'s
fallback: `{ notifications: true, system: { isRestricted: false } }`. -/
def defaultSettings : UserSettings :=
  { notifications := true, system := { isRestricted := false } }

/-- The `{}` metadata fallback of `fromJSON` (`data.metadata || {}`): an
object with every modelled field absent. -/
def emptyMetadata : UserBasicInformation := {}

/-! ## Getters -/

/-- `get isEmailVerified`: `this._metadata.verification?.email_verified ?? false`. -/
def MajikUser.isEmailVerified (u : MajikUser) : Bool :=
  (u.metadata.verification.map Verification.email_verified).getD false

/-- `get isPhoneVerified`: `this._metadata.verification?.phone_verified ?? false`. -/
def MajikUser.isPhoneVerified (u : MajikUser) : Bool :=
  (u.metadata.verification.map Verification.phone_verified).getD false

/-- `get isIdentityVerified`. -/
def MajikUser.isIdentityVerified (u : MajikUser) : Bool :=
  (u.metadata.verification.map Verification.identity_verified).getD false

/-! ## Mutators

Each mutator that ends in `updateTimestamp()` sets `lastUpdate := now`.
`updateMetadata({ field })` spreads a single-field update over the metadata
record; it is embedded as the corresponding record update. -/

/-- `set email` (lines 442-450): `validateEmail` throws on regex failure
before any assignment; on success the email is stored, the
`email_verified` flag is cleared when the `verification` sub-record exists,
and the timestamp advances. -/
def MajikUser.setEmail (u : MajikUser) (value : String) (now : JSDate) :
    Except String MajikUser :=
  if emailRegexTest value then
    .ok { u with
          email := value
          metadata := { u.metadata with
            verification := u.metadata.verification.map
              (fun v => { v with email_verified := false }) }
          lastUpdate := now }
  else
    .error "Invalid email format"

/-- `set displayName` (lines 452-458): throws only when the value is empty or
whitespace-only; otherwise stores the value verbatim. -/
def MajikUser.setDisplayName (u : MajikUser) (value : String) (now : JSDate) :
    Except String MajikUser :=
  if value = "" || jsTrim value = "" then
    .error "Display name cannot be empty"
  else
    .ok { u with displayName := value, lastUpdate := now }

/-- `set hash` (lines 460-466). -/
def MajikUser.setHash (u : MajikUser) (value : String) (now : JSDate) :
    Except String MajikUser :=
  if value = "" then
    .error "Hash cannot be empty"
  else
    .ok { u with hash := value, lastUpdate := now }

/-- `setName` (lines 473-475): no validation, stores via `updateMetadata`. -/
def MajikUser.setName (u : MajikUser) (name : FullName) (now : JSDate) : MajikUser :=
  { u with metadata := { u.metadata with name := some name }, lastUpdate := now }

/-- `setPicture` (lines 480-482): stores the URL verbatim via
`updateMetadata({ picture: url })`; no URI check of any kind exists in the
source. -/
def MajikUser.setPicture (u : MajikUser) (url : String) (now : JSDate) : MajikUser :=
  { u with metadata := { u.metadata with picture := some url }, lastUpdate := now }

/-- `setPhone` (lines 487-493): stores the phone (bumping the timestamp via
`updateMetadata`), then clears `phone_verified` when the `verification`
sub-record exists. -/
def MajikUser.setPhone (u : MajikUser) (phone : String) (now : JSDate) : MajikUser :=
  { u with
    metadata := { u.metadata with
      phone := some phone
      verification := u.metadata.verification.map
        (fun v => { v with phone_verified := false }) }
    lastUpdate := now }

/-- `setAddress` (lines 498-500). -/
def MajikUser.setAddress (u : MajikUser) (a : Address) (now : JSDate) : MajikUser :=
  { u with metadata := { u.metadata with address := some a }, lastUpdate := now }

/-- `setBirthdate` (lines 506-526), string branch: the input must match
`/^\d{4}-\d{2}-\d{2}$/` and is then stored verbatim — no calendar-validity
check runs on this branch (`YYYYMMDDToDate` is never called).  The
`Date`-object branch, which formats via `dateToYYYYMMDD`, is not needed by
the claims and is not modelled. -/
def MajikUser.setBirthdate (u : MajikUser) (birthdate : String) (now : JSDate) :
    Except String MajikUser :=
  if birthdateRegexTest birthdate then
    .ok { u with
          metadata := { u.metadata with birthdate := some birthdate }
          lastUpdate := now }
  else
    .error "Invalid birthdate format. Use YYYY-MM-DD"

/-- `setGender` (lines 531-533). -/
def MajikUser.setGender (u : MajikUser) (g : String) (now : JSDate) : MajikUser :=
  { u with metadata := { u.metadata with gender := some g }, lastUpdate := now }

/-- `setBio` (lines 538-540): `this.updateMetadata({ bio })` — the raw string
is stored unmodified; no sanitization call exists in the source and no error
is ever raised (not even for an empty string). -/
def MajikUser.setBio (u : MajikUser) (bio : String) (now : JSDate) : MajikUser :=
  { u with metadata := { u.metadata with bio := some bio }, lastUpdate := now }

/-- `setLanguage` (lines 545-547). -/
def MajikUser.setLanguage (u : MajikUser) (l : String) (now : JSDate) : MajikUser :=
  { u with metadata := { u.metadata with language := some l }, lastUpdate := now }

/-- `setTimezone` (lines 552-554). -/
def MajikUser.setTimezone (u : MajikUser) (t : String) (now : JSDate) : MajikUser :=
  { u with metadata := { u.metadata with timezone := some t }, lastUpdate := now }

/-- JS object spread `{ ...links, [platform]: url }` on an insertion-ordered
record: an existing key keeps its position with the new value, a new key is
appended. -/
def upsertLink (links : List (String × String)) (platform url : String) :
    List (String × String) :=
  if links.any (fun p => p.1 = platform) then
    links.map (fun p => if p.1 = platform then (platform, url) else p)
  else
    links ++ [(platform, url)]

/-- `setSocialLink` (lines 559-562): spreads the new pair into the map and
stores it via `updateMetadata`; the URL is stored verbatim, no URI check
exists in the source.  (`this._metadata.social_links` spreads as `{}` when
absent.) -/
def MajikUser.setSocialLink (u : MajikUser) (platform url : String) (now : JSDate) :
    MajikUser :=
  { u with
    metadata := { u.metadata with
      social_links := some (upsertLink (u.metadata.social_links.getD []) platform url) }
    lastUpdate := now }

/-- `removeSocialLink` (lines 567-573): returns unchanged (no timestamp bump)
when the map is absent, else deletes the key and stores the map. -/
def MajikUser.removeSocialLink (u : MajikUser) (platform : String) (now : JSDate) :
    MajikUser :=
  match u.metadata.social_links with
  | none => u
  | some links =>
    { u with
      metadata := { u.metadata with
        social_links := some (links.filter (fun p => p.1 ≠ platform)) }
      lastUpdate := now }

/-- The `this._metadata.verification || {email_verified:false, …}` default
used by all six verification toggles. -/
def currentVerification (u : MajikUser) : Verification :=
  u.metadata.verification.getD
    { email_verified := false, phone_verified := false, identity_verified := false }

/-- `verifyEmail` (lines 595-608): full read-modify-write of the
verification sub-record through `updateMetadata`. -/
def MajikUser.verifyEmail (u : MajikUser) (now : JSDate) : MajikUser :=
  { u with
    metadata := { u.metadata with
      verification := some { currentVerification u with email_verified := true } }
    lastUpdate := now }

/-- `unverifyEmail` (lines 613-626). -/
def MajikUser.unverifyEmail (u : MajikUser) (now : JSDate) : MajikUser :=
  { u with
    metadata := { u.metadata with
      verification := some { currentVerification u with email_verified := false } }
    lastUpdate := now }

/-- `verifyPhone` (lines 631-644). -/
def MajikUser.verifyPhone (u : MajikUser) (now : JSDate) : MajikUser :=
  { u with
    metadata := { u.metadata with
      verification := some { currentVerification u with phone_verified := true } }
    lastUpdate := now }

/-- `unverifyPhone` (lines 649-662). -/
def MajikUser.unverifyPhone (u : MajikUser) (now : JSDate) : MajikUser :=
  { u with
    metadata := { u.metadata with
      verification := some { currentVerification u with phone_verified := false } }
    lastUpdate := now }

/-- `verifyIdentity` (lines 667-680). -/
def MajikUser.verifyIdentity (u : MajikUser) (now : JSDate) : MajikUser :=
  { u with
    metadata := { u.metadata with
      verification := some { currentVerification u with identity_verified := true } }
    lastUpdate := now }

/-- `unverifyIdentity` (lines 685-698). -/
def MajikUser.unverifyIdentity (u : MajikUser) (now : JSDate) : MajikUser :=
  { u with
    metadata := { u.metadata with
      verification := some { currentVerification u with identity_verified := false } }
    lastUpdate := now }

/-- `updateSettings` (lines 713-723) specialised to a full `system` object,
as called by `restrict`/`unrestrict`: the given `system` keys overwrite the
old ones (both keys are always given, so the merge is the new record). -/
def MajikUser.restrict (u : MajikUser) (until_ : Option JSDate) (now : JSDate) :
    MajikUser :=
  { u with
    settings := { u.settings with
      system := { isRestricted := true, restrictedUntil := until_ } }
    lastUpdate := now }

/-- `unrestrict` (lines 765-772). -/
def MajikUser.unrestrict (u : MajikUser) (now : JSDate) : MajikUser :=
  { u with
    settings := { u.settings with
      system := { isRestricted := false, restrictedUntil := none } }
    lastUpdate := now }

/-- `enableNotifications` (lines 728-730). -/
def MajikUser.enableNotifications (u : MajikUser) (now : JSDate) : MajikUser :=
  { u with settings := { u.settings with notifications := true }, lastUpdate := now }

/-- `disableNotifications` (lines 735-737). -/
def MajikUser.disableNotifications (u : MajikUser) (now : JSDate) : MajikUser :=
  { u with settings := { u.settings with notifications := false }, lastUpdate := now }

/-! ## `validate` (lines 821-865)

Returns `{ isValid, errors }` as a pair; the error strings are collected in
push order.  `validateEmail` is invoked inside `try`/`catch`, so `validate`
never throws: the model is a total function.  Interpolating the caught
`Error` into the template string yields
`"Invalid email format: Error: Invalid email format"`.  The two
`instanceof Date`/`isNaN` checks on `createdAt`/`lastUpdate` always pass in
the model, which represents only valid instants (`JSDate = Int`); the JS
"Invalid Date" value is unrepresentable here.  The phone and birthdate checks
run only when the field is truthy (present and nonempty). -/
def MajikUser.validate (u : MajikUser) : Bool × List String :=
  let errors :=
    (if u.id = "" then ["ID is required"] else []) ++
    (if u.email = "" then ["Email is required"] else []) ++
    (if u.displayName = "" then ["Display name is required"] else []) ++
    (if u.hash = "" then ["Hash is required"] else []) ++
    (if emailRegexTest u.email then []
     else ["Invalid email format: Error: Invalid email format"]) ++
    (match u.metadata.phone with
     | some p => if p ≠ "" && !phoneRegexTest p then ["Invalid phone number format"] else []
     | none => []) ++
    (match u.metadata.birthdate with
     | some b =>
       if b ≠ "" && !birthdateRegexTest b then ["Invalid birthdate format"] else []
     | none => [])
  (errors.isEmpty, errors)

/-! ## Factories and serialization -/

/-- The default verification block stamped by `initialize`. -/
def freshVerification : Verification :=
  { email_verified := false, phone_verified := false, identity_verified := false }

/-- `initialize` (lines 65-104).  The collaborator-supplied ID generator and
digest function are explicit parameters (`generateID` wraps `uuidv4`,
`hashID` wraps SHA-256 + base64 — both external to the defensive core).  The
two `new Date()` calls of the construction are modelled as the single
instant `now`.  `validateEmail(email)` runs after construction and throws
away the instance on regex failure. -/
def initializeUser (genID : String) (hashID : String → String)
    (email displayName : String) (idOpt : Option String) (now : JSDate) :
    Except String MajikUser :=
  if email = "" then
    .error "Email cannot be empty"
  else if displayName = "" then
    .error "Display name cannot be empty"
  else
    let userID :=
      match idOpt with
      | some i => if jsTrim i = "" then genID else i
      | none => genID
    let inst : MajikUser :=
      { id := userID
        email := email
        displayName := displayName
        hash := hashID userID
        metadata := { verification := some freshVerification }
        settings := defaultSettings
        createdAt := now
        lastUpdate := now }
    if emailRegexTest email then .ok inst else .error "Invalid email format"

/-- The wire shape produced by `toJSON` and consumed by `fromJSON`
(`MajikUserJSON` of src/types.ts).  A date field holds the instant its ISO
string denotes; `none` models an absent or falsy field.  The string fields
model absent/non-string/empty as `""` (all are falsy or rejected by the
same guard). -/
structure MajikUserJSONRecord where
  id : String
  email : String
  displayName : String
  hash : String
  metadata : Option UserBasicInformation
  settings : Option UserSettings
  createdAt : Option JSDate
  lastUpdate : Option JSDate
deriving DecidableEq, Repr

/-- `toJSON` (lines 918-929): full-fidelity projection; the two dates are
emitted via `toISOString()`, which denotes the same instant. -/
def MajikUser.toJSON (u : MajikUser) : MajikUserJSONRecord :=
  { id := u.id
    email := u.email
    displayName := u.displayName
    hash := u.hash
    metadata := some u.metadata
    settings := some u.settings
    createdAt := some u.createdAt
    lastUpdate := some u.lastUpdate }

/-- `fromJSON` (lines 109-146): guards that `id`, `email`, `displayName`,
`hash` are present, string-typed and nonempty; `metadata` falls back to `{}`
and `settings` to the default block when falsy (a present object, even empty,
is truthy and passes through); each date falls back to `new Date()` (= `now`)
when falsy, else `new Date(iso)` reproduces the instant.  The constructor
then shallow-copies every field. -/
def fromJSONRecord (j : MajikUserJSONRecord) (now : JSDate) :
    Except String MajikUser :=
  if j.id = "" then
    .error "Invalid user data: missing or invalid id"
  else if j.email = "" then
    .error "Invalid user data: missing or invalid email"
  else if j.displayName = "" then
    .error "Invalid user data: missing or invalid displayName"
  else if j.hash = "" then
    .error "Invalid user data: missing or invalid hash"
  else
    .ok { id := j.id
          email := j.email
          displayName := j.displayName
          hash := j.hash
          metadata := j.metadata.getD emptyMetadata
          settings := j.settings.getD defaultSettings
          createdAt := j.createdAt.getD now
          lastUpdate := j.lastUpdate.getD now }

/-! ## The public mutating operations as one step relation -/

/-- One public mutating operation of the entity, used to state invariants
quantified over every modelled mutator. -/
inductive Op where
  | opSetEmail (v : String)
  | opSetDisplayName (v : String)
  | opSetHash (v : String)
  | opSetName (v : FullName)
  | opSetPicture (v : String)
  | opSetPhone (v : String)
  | opSetAddress (v : Address)
  | opSetBirthdate (v : String)
  | opSetGender (v : String)
  | opSetBio (v : String)
  | opSetLanguage (v : String)
  | opSetTimezone (v : String)
  | opSetSocialLink (k v : String)
  | opRemoveSocialLink (k : String)
  | opVerifyEmail
  | opUnverifyEmail
  | opVerifyPhone
  | opUnverifyPhone
  | opVerifyIdentity
  | opUnverifyIdentity
  | opRestrict (until_ : Option JSDate)
  | opUnrestrict
  | opEnableNotifications
  | opDisableNotifications
deriving DecidableEq, Repr

/-- Run one public mutating operation at instant `now`; `.error` models a
thrown exception (state untouched). -/
def Op.apply (op : Op) (u : MajikUser) (now : JSDate) : Except String MajikUser :=
  match op with
  | .opSetEmail v => u.setEmail v now
  | .opSetDisplayName v => u.setDisplayName v now
  | .opSetHash v => u.setHash v now
  | .opSetName v => .ok (u.setName v now)
  | .opSetPicture v => .ok (u.setPicture v now)
  | .opSetPhone v => .ok (u.setPhone v now)
  | .opSetAddress v => .ok (u.setAddress v now)
  | .opSetBirthdate v => u.setBirthdate v now
  | .opSetGender v => .ok (u.setGender v now)
  | .opSetBio v => .ok (u.setBio v now)
  | .opSetLanguage v => .ok (u.setLanguage v now)
  | .opSetTimezone v => .ok (u.setTimezone v now)
  | .opSetSocialLink k v => .ok (u.setSocialLink k v now)
  | .opRemoveSocialLink k => .ok (u.removeSocialLink k now)
  | .opVerifyEmail => .ok (u.verifyEmail now)
  | .opUnverifyEmail => .ok (u.unverifyEmail now)
  | .opVerifyPhone => .ok (u.verifyPhone now)
  | .opUnverifyPhone => .ok (u.unverifyPhone now)
  | .opVerifyIdentity => .ok (u.verifyIdentity now)
  | .opUnverifyIdentity => .ok (u.unverifyIdentity now)
  | .opRestrict until_ => .ok (u.restrict until_ now)
  | .opUnrestrict => .ok (u.unrestrict now)
  | .opEnableNotifications => .ok (u.enableNotifications now)
  | .opDisableNotifications => .ok (u.disableNotifications now)

/-! ## Concrete fixtures used by the closed theorems -/

/-- Verification record with both channel flags set, so clearing effects
are observable. -/
def sampleVerification : Verification :=
  { email_verified := true, phone_verified := true, identity_verified := false }

/-- A representative live entity. -/
def sampleUser : MajikUser :=
  { id := "user-1"
    email := "zelijah@example.com"
    displayName := "Zelijah"
    hash := "h4sh"
    metadata := { verification := some sampleVerification }
    settings := defaultSettings
    createdAt := 0
    lastUpdate := 0 }

/-- The README's own XSS payload for the display-name setter. -/
def c1Payload : String := "<script>alert(1)</script> Josef"

/-- Result of assigning the XSS payload through the display-name setter. -/
def c1User : MajikUser :=
  match sampleUser.setDisplayName c1Payload 5 with
  | .ok u => u
  | .error _ => sampleUser

/-- Result of `initialize` with the XSS payload as display name (the digest
collaborator is instantiated with the identity function; its value is
irrelevant to the property). -/
def c1Init : MajikUser :=
  match initializeUser "gen-id" (fun s => s) "user@example.com" c1Payload none 0 with
  | .ok u => u
  | .error _ => sampleUser

/-- The README's own unsafe-scheme payload for `setPicture`. -/
def c2URI : String := "javascript:alert(1)"

/-- The spec's clean-on-write example input for `setBio`. -/
def c3Bio : String := "I love <b>coding</b>"

/-- Result of changing the email of `sampleUser`. -/
def c5User : MajikUser :=
  match sampleUser.setEmail "a@b.co" 3 with
  | .ok u => u
  | .error _ => sampleUser

/-- Result of `setBirthdate` with the impossible calendar date. -/
def c7User : MajikUser :=
  match sampleUser.setBirthdate "2023-02-30" 5 with
  | .ok u => u
  | .error _ => sampleUser

/-- An entity with empty email, malformed phone and malformed birthdate, for
the aggregate-validation claim. -/
def c8User : MajikUser :=
  { id := "user-8"
    email := ""
    displayName := "D"
    hash := "h"
    metadata := { phone := some "abc", birthdate := some "30-02" }
    settings := defaultSettings
    createdAt := 0
    lastUpdate := 0 }

/-- A well-formed wire payload whose serialized `lastUpdate` instant precedes
its `createdAt` instant. -/
def c9JSON : MajikUserJSONRecord :=
  { id := "user-9"
    email := "a@b.co"
    displayName := "D"
    hash := "h"
    metadata := none
    settings := none
    createdAt := some 100
    lastUpdate := some 50 }

/-- The entity `fromJSON` rehydrates from `c9JSON`. -/
def c9User : MajikUser :=
  match fromJSONRecord c9JSON 0 with
  | .ok u => u
  | .error _ => sampleUser

/-- Result of a fresh `initialize` at instant 4, for the amended C9 witness. -/
def c9Init : MajikUser :=
  match initializeUser "gen-id" (fun s => s) "a@b.co" "D" none 4 with
  | .ok u => u
  | .error _ => sampleUser

/-! ## Claim theorems -/

/-- Claim C1 (code_bug evaluation).  The claim says a display name containing
a threat pattern recognized by `checkForHTMLTags` is rejected by the
`displayName` setter and by `initialize`.  In the source neither ever calls
`checkForHTMLTags`: on the README's own payload the threat matcher fires
(via its `<script` pattern, before any stateful or host-dependent check), yet
the setter succeeds and stores the payload verbatim, and `initialize`
likewise constructs the entity with the payload as its display name. -/
theorem claim_C1_code_eval :
    (checkForHTMLTags .absent 0 c1Payload).1 = true ∧
    sampleUser.setDisplayName c1Payload 5 = .ok c1User ∧
    c1User.displayName = c1Payload ∧
    initializeUser "gen-id" (fun s => s) "user@example.com" c1Payload none 0 =
      .ok c1Init ∧
    c1Init.displayName = c1Payload :=
  ⟨by decide, rfl, rfl, rfl, rfl⟩

/-- Claim C2 (code_bug evaluation).  The claim says `setPicture` and
`setSocialLink` reject a `javascript:` URI via a safe-URI allowlist check and
leave the metadata unchanged.  No such check exists anywhere in the source:
both mutators succeed and store the URI verbatim in `metadata.picture` and in
the `social_links` map — even though the repository's own pattern set
(`dangerPattern3`) recognizes the scheme as dangerous. -/
theorem claim_C2_code_eval :
    (sampleUser.setPicture c2URI 5).metadata.picture = some c2URI ∧
    (sampleUser.setSocialLink "x" c2URI 5).metadata.social_links =
      some [("x", c2URI)] ∧
    dangerPattern3 c2URI = true :=
  ⟨rfl, by decide, by decide⟩

/-- Claim C3 (code_bug evaluation).  The claim says `setBio` stores the
sanitized form of its input with markup stripped (`"I love coding"`).  The
source's `setBio` is `this.updateMetadata({ bio })` — it stores the raw
string, tags included; the repository's own fallback sanitizer
(`hardenedFallback`) would have produced the claimed clean value. -/
theorem claim_C3_code_eval :
    (sampleUser.setBio c3Bio 5).metadata.bio = some c3Bio ∧
    hardenedFallback c3Bio = "I love coding" :=
  ⟨rfl, by decide⟩

/-- Claim C4 (code_bug evaluation).  The claim says `sanitizeInput` takes the
degraded replace-strip-trim path both when the resolved sanitizer is null and
when it throws.  In the source the hardened fallback sits in the `catch`
block, which the null case never reaches: with the sanitizer absent the
function returns the input merely trimmed, tags intact, while the throwing
case (and the fallback itself) strips them. -/
theorem claim_C4_code_eval :
    sanitizeInput .absent "<b>hi</b>" = "<b>hi</b>" ∧
    hardenedFallback "<b>hi</b>" = "hi" ∧
    sanitizeInput .throwing "<b>hi</b>" = "hi" :=
  ⟨by decide, by decide, by decide⟩

/-- Claim C5 (confirmed).  Every email value the email setter accepts leaves
`isEmailVerified` false in the same call (the setter clears the flag when the
verification record exists, and the getter defaults to false when it does
not), and every `setPhone` call leaves `isPhoneVerified` false likewise. -/
theorem claim_C5_verification_cleared :
    (∀ (u : MajikUser) (v : String) (now : JSDate) (u2 : MajikUser),
      u.setEmail v now = .ok u2 → u2.isEmailVerified = false) ∧
    (∀ (u : MajikUser) (p : String) (now : JSDate),
      (u.setPhone p now).isPhoneVerified = false) := by
  constructor
  · intro u v now u2 h
    unfold MajikUser.setEmail at h
    split at h
    · cases h
      unfold MajikUser.isEmailVerified
      cases hv : u.metadata.verification <;> simp [hv]
    · cases h
  · intro u p now
    unfold MajikUser.isPhoneVerified MajikUser.setPhone
    cases hv : u.metadata.verification <;> simp [hv]

/-- Claim C5 witness: instantiated on `sampleUser`, whose flags start true. -/
theorem claim_C5_witness :
    c5User.isEmailVerified = false ∧
    (sampleUser.setPhone "+639123456789" 3).isPhoneVerified = false :=
  ⟨claim_C5_verification_cleared.1 sampleUser "a@b.co" 3 c5User rfl,
   claim_C5_verification_cleared.2 sampleUser "+639123456789" 3⟩

/-- Claim C6 (confirmed).  For every entity whose four required strings are
nonempty (every factory-produced entity satisfies this), `fromJSON` applied
to the result of `toJSON` succeeds and reproduces an entity with identical
id, email, displayName, hash, metadata, settings, and timestamps denoting
the same instants (date serialization round-trips the instant exactly at
millisecond precision). -/
theorem claim_C6_roundtrip (u : MajikUser) (now : JSDate)
    (hid : u.id ≠ "") (he : u.email ≠ "") (hd : u.displayName ≠ "")
    (hh : u.hash ≠ "") :
    fromJSONRecord u.toJSON now = .ok u := by
  cases u
  unfold fromJSONRecord MajikUser.toJSON
  simp_all

/-- Claim C6 witness at a concrete entity and rehydration instant. -/
theorem claim_C6_witness : fromJSONRecord sampleUser.toJSON 9 = .ok sampleUser :=
  claim_C6_roundtrip sampleUser 9 (by decide) (by decide) (by decide) (by decide)

/-- Claim C7 counterexample.  The claim says `setBirthdate "2023-02-30"`
throws and leaves the birthdate unchanged; in the source the string branch
checks only the shape regex, which `"2023-02-30"` passes, so the call
succeeds and the impossible date is stored. -/
theorem claim_C7_counterexample :
    sampleUser.setBirthdate "2023-02-30" 5 = .ok c7User ∧
    c7User.metadata.birthdate = some "2023-02-30" :=
  ⟨rfl, rfl⟩

/-- Claim C7 amended: for every string input, `setBirthdate` succeeds iff the
input matches the shape `\d{4}-\d{2}-\d{2}`; calendar validity is never
checked (the impossible `2023-02-30` is accepted and stored verbatim), the
stored birthdate is exactly the input, and a shape failure throws, leaving
the entity unchanged. -/
theorem claim_C7_amended_thm (u : MajikUser) (s : String) (now : JSDate) :
    ((∃ u2, u.setBirthdate s now = .ok u2) ↔ birthdateRegexTest s = true) ∧
    (∀ u2, u.setBirthdate s now = .ok u2 → u2.metadata.birthdate = some s) ∧
    (birthdateRegexTest s = false →
      u.setBirthdate s now = .error "Invalid birthdate format. Use YYYY-MM-DD") := by
  unfold MajikUser.setBirthdate
  refine ⟨⟨?_, ?_⟩, ?_, ?_⟩
  · rintro ⟨u2, h⟩
    by_contra hb
    simp only [Bool.not_eq_true] at hb
    simp [hb] at h
  · intro hb
    simp only [hb, if_true]
    exact ⟨_, rfl⟩
  · intro u2 h
    split at h
    · cases h; rfl
    · cases h
  · intro hb
    simp [hb]

/-- Claim C7 amended witness: both sides exercised at concrete inputs. -/
theorem claim_C7_amended_witness :
    c7User.metadata.birthdate = some "2023-02-30" ∧
    sampleUser.setBirthdate "30-02" 5 =
      .error "Invalid birthdate format. Use YYYY-MM-DD" :=
  ⟨(claim_C7_amended_thm sampleUser "2023-02-30" 5).2.1 c7User rfl,
   (claim_C7_amended_thm sampleUser "30-02" 5).2.2 (by decide)⟩

/-- Claim C8 (confirmed).  `validate` is a total function (the only
potentially throwing callee, `validateEmail`, is wrapped in try/catch in the
source, so the embedding is total) and does not short-circuit: on an entity
with empty email it reports invalidity with an error mentioning email, and
the same call still reports the independent malformed-phone and
malformed-birthdate findings. -/
theorem claim_C8_validate_accumulates (u : MajikUser) (p b : String)
    (he : u.email = "")
    (hp : u.metadata.phone = some p) (hp1 : p ≠ "") (hp2 : phoneRegexTest p = false)
    (hb : u.metadata.birthdate = some b) (hb1 : b ≠ "")
    (hb2 : birthdateRegexTest b = false) :
    u.validate.1 = false ∧
    "Email is required" ∈ u.validate.2 ∧
    "Invalid phone number format" ∈ u.validate.2 ∧
    "Invalid birthdate format" ∈ u.validate.2 := by
  have hreg : emailRegexTest u.email = false := by rw [he]; decide
  unfold MajikUser.validate
  simp [he, hreg, hp, hp1, hp2, hb, hb1, hb2]

/-- Claim C8 witness on a concrete entity with all three defects. -/
theorem claim_C8_witness :
    c8User.validate.1 = false ∧
    "Email is required" ∈ c8User.validate.2 ∧
    "Invalid phone number format" ∈ c8User.validate.2 ∧
    "Invalid birthdate format" ∈ c8User.validate.2 :=
  claim_C8_validate_accumulates c8User "abc" "30-02" rfl rfl (by decide)
    (by decide) rfl (by decide) (by decide)

/-- Claim C9 counterexample.  The claim says every entity produced by the
three factories satisfies `lastUpdate ≥ createdAt`; `fromJSON` copies both
instants from its payload unchecked, so a payload whose serialized
`lastUpdate` precedes its `createdAt` rehydrates successfully into an entity
violating the invariant. -/
theorem claim_C9_counterexample :
    fromJSONRecord c9JSON 0 = .ok c9User ∧ c9User.lastUpdate < c9User.createdAt :=
  ⟨rfl, by decide⟩

/-- Claim C9 amended: a freshly initialized entity satisfies
`createdAt ≤ lastUpdate`, and every successful public mutating operation,
run at an instant not before the entity's current `lastUpdate` (the clock
is monotone), preserves `createdAt` and never decreases `lastUpdate`; the
rehydration factories, which copy stored timestamps verbatim, are excluded. -/
theorem claim_C9_amended_thm :
    (∀ (genID : String) (hashID : String → String) (email displayName : String)
       (idOpt : Option String) (now : JSDate) (u2 : MajikUser),
      initializeUser genID hashID email displayName idOpt now = .ok u2 →
      u2.createdAt ≤ u2.lastUpdate) ∧
    (∀ (op : Op) (u : MajikUser) (now : JSDate) (u2 : MajikUser),
      u.lastUpdate ≤ now → op.apply u now = .ok u2 →
      u.lastUpdate ≤ u2.lastUpdate ∧ u2.createdAt = u.createdAt) := by
  constructor
  · intro genID hashID email displayName idOpt now u2 h
    unfold initializeUser at h
    repeat' split at h
    all_goals first
    | (cases h; exact le_refl _)
    | (cases h)
  · intro op u now u2 hle h
    cases op <;> simp only [Op.apply] at h
    case opSetEmail v =>
      unfold MajikUser.setEmail at h
      split at h
      · cases h; exact ⟨hle, rfl⟩
      · cases h
    case opSetDisplayName v =>
      unfold MajikUser.setDisplayName at h
      split at h
      · cases h
      · cases h; exact ⟨hle, rfl⟩
    case opSetHash v =>
      unfold MajikUser.setHash at h
      split at h
      · cases h
      · cases h; exact ⟨hle, rfl⟩
    case opSetBirthdate v =>
      unfold MajikUser.setBirthdate at h
      split at h
      · cases h; exact ⟨hle, rfl⟩
      · cases h
    case opRemoveSocialLink k =>
      unfold MajikUser.removeSocialLink at h
      rcases hsl : u.metadata.social_links with _ | links <;> rw [hsl] at h
      · cases h; exact ⟨le_refl _, rfl⟩
      · cases h; exact ⟨hle, rfl⟩
    all_goals (cases h; exact ⟨hle, rfl⟩)

/-- Claim C9 amended witness: a concrete initialization and a concrete
successful mutation at a later instant. -/
theorem claim_C9_amended_witness :
    c9Init.createdAt ≤ c9Init.lastUpdate ∧
    (sampleUser.lastUpdate ≤ (sampleUser.setBio "x" 7).lastUpdate ∧
     (sampleUser.setBio "x" 7).createdAt = sampleUser.createdAt) :=
  ⟨claim_C9_amended_thm.1 "gen-id" (fun s => s) "a@b.co" "D" none 4 c9Init rfl,
   claim_C9_amended_thm.2 (.opSetBio "x") sampleUser 7 (sampleUser.setBio "x" 7)
     (by decide) rfl⟩

/-- Claim C10 (code_bug evaluation).  The claim says `checkForHTMLTags` is
deterministic with no observable state carried between calls.  Pattern 4 of
`DANGER_PATTERNS` carries the regex `g` flag, so its `lastIndex` persists on
the module-level regex object across calls: on `"&amp;"` (matched only by
that pattern) the first call answers true and leaves `lastIndex = 5`, and the
immediately following call with the same input answers false — both when the
host sanitizer is unavailable and when it is available and returns the
entity-encoded input unchanged, as DOMPurify does here. -/
theorem claim_C10_code_eval :
    checkForHTMLTags .absent 0 "&amp;" = (true, 5) ∧
    checkForHTMLTags .absent 5 "&amp;" = (false, 0) ∧
    checkForHTMLTags (.available (fun s => s)) 0 "&amp;" = (true, 5) ∧
    checkForHTMLTags (.available (fun s => s)) 5 "&amp;" = (false, 0) :=
  ⟨by decide, by decide, by decide, by decide⟩

end MajikUserModel
